import Mathlib

/-!
Shallow embedding of the SentinelMind AI core (threat detection / defense
protocol and the adaptive practice-agent subsystem) together with proofs
of the specification claims.

The defense side embeds the `DefenseProtocol` class: the threat-pattern
catalog, keyword/indicator scoring, threat-level assessment, strategy
selection, counter-measure generation and the emergency protocol.  The
agent side embeds `AIAgentManager` / `PracticeAgent`: effectiveness
computation, state updates and the adaptive-learning loop.

JavaScript strings are modelled as `String` / `List Char`; JS numbers are
modelled as `ℚ` (the arithmetic involved is exact decimal arithmetic);
JS `Map`s are modelled as insertion-ordered association lists; the
nondeterministic inputs (`Math.random`, `Date.now`) are threaded as
explicit parameters.
-/

namespace Sentinel

/-- The apostrophe character, kept out of string literals. -/
def apoc : Char := Char.ofNat 39

/-- One-character apostrophe string. -/
def apoS : String := String.mk [apoc]

/-- JS `String.prototype.toLowerCase` restricted to the ASCII inputs used
by the program (`Char.toLower` lower-cases exactly the ASCII uppercase
letters). -/
def lowerStr (s : String) : List Char := s.data.map Char.toLower

/-- Boolean prefix test on character lists. -/
def prefOf : List Char → List Char → Bool
  | [], _ => true
  | _ :: _, [] => false
  | c :: cs, d :: ds => c == d && prefOf cs ds

/-- JS `String.prototype.includes`: `needle` occurs as a contiguous
substring of `hay`. -/
def containsSub (hay needle : List Char) : Bool :=
  match hay with
  | [] => needle.isEmpty
  | _ :: t => prefOf needle hay || containsSub t needle

/-- The JS regex character class `[.!?]`. -/
def isPunctC (c : Char) : Bool := c == '.' || c == '!' || c == '?'

/-- The JS regex character class `\w` (`[A-Za-z0-9_]`). -/
def isWordC (c : Char) : Bool :=
  ('a' ≤ c && c ≤ 'z') || ('A' ≤ c && c ≤ 'Z') || ('0' ≤ c && c ≤ '9') || c == '_'

/-- The JS regex character class `\s` restricted to ASCII whitespace. -/
def isSpaceC (c : Char) : Bool :=
  c == ' ' || c == '\t' || c == '\n' || c == '\x0d' || c == '\x0b' || c == '\x0c'

/-- Residual matcher for `/[.!?]\s*\w+\s*[.!?]/` after an initial
punctuation character: `\s*\w+\s*[.!?]`.  The classes `\s`, `\w`, `[.!?]`
are pairwise disjoint, so greedy consumption is the unique match. -/
def tonalTail (l : List Char) : Bool :=
  let l1 := l.dropWhile isSpaceC
  match l1 with
  | [] => false
  | c :: _ =>
    isWordC c &&
      match (l1.dropWhile isWordC).dropWhile isSpaceC with
      | [] => false
      | d :: _ => isPunctC d

/-- The `tonal_shift` indicator regex `/[.!?]\s*\w+\s*[.!?]/`. -/
def tonalShift : List Char → Bool
  | [] => false
  | c :: rest => (isPunctC c && tonalTail rest) || tonalShift rest

/-- Residual matcher for `/\*\w+\*/` after an initial `*`: `\w+\*`. -/
def analogTail (l : List Char) : Bool :=
  match l with
  | [] => false
  | c :: _ =>
    isWordC c &&
      match l.dropWhile isWordC with
      | d :: _ => d == '*'
      | [] => false

/-- The `analog_marking` indicator regex `/\*\w+\*/`. -/
def analogMarking : List Char → Bool
  | [] => false
  | c :: rest => (c == '*' && analogTail rest) || analogMarking rest

/-- `true` iff some alternative token occurs as a substring; this is JS
`regex.test` for an alternation of literal tokens such as
`/suddenly|now|stop|wait/`. -/
def containsAny (hay : List Char) (toks : List (List Char)) : Bool :=
  toks.any fun t => containsSub hay t

/-- JS `regex.test` for `/(A|B).*?(A|B)/`: one token matches at some
position and another token occurs at or after its end. -/
def twoTokens (toks : List (List Char)) : List Char → Bool
  | [] => false
  | c :: rest =>
    (toks.any fun t => prefOf t (c :: rest) && containsAny ((c :: rest).drop t.length) toks)
      || twoTokens toks rest

/-- `DefenseProtocol.detectIndicator`: the table of simplified indicator
regexes; an indicator absent from the table never matches.  The input is
the already lower-cased text, so the `/i` flags are absorbed. -/
def detectIndicator (input : List Char) (indicator : String) : Bool :=
  if indicator = "tonal_shift" then tonalShift input
  else if indicator = "pause_pattern" then containsSub input "...".data
  else if indicator = "analog_marking" then analogMarking input
  else if indicator = "multiple_negations" then
    twoTokens ["not".data, ('n' :: apoc :: 't' :: [])] input
  else if indicator = "paradox" then
    twoTokens ["but".data, "yet".data, "however".data] input
  else if indicator = "pattern_interrupt" then
    containsAny input ["suddenly".data, "now".data, "stop".data, "wait".data]
  else if indicator = "storytelling" then
    containsAny input ["once upon".data, "imagine".data, "let me tell".data]
  else if indicator = "metaphor" then
    containsAny input ["like".data, "as if".data, "just like".data]
  else if indicator = "anchoring" then
    containsAny input ["every time".data, "whenever".data, "each time".data]
  else false

/-- `ThreatPattern` with its map key (`type`). -/
structure ThreatPattern where
  type : String
  indicators : List String
  keywords : List String
  detection : String
deriving DecidableEq

/-- The threat-pattern catalog built by the `DefenseProtocol` constructor,
in JS `Map` insertion order. -/
def threatPatterns : List ThreatPattern :=
  [ { type := "embedded_commands"
      indicators := ["tonal_shift", "pause_pattern", "analog_marking"]
      keywords := ["now", "feel", "imagine", "notice", "realize"]
      detection := "\n        Scanning for embedded commands...\n        - Tonal shifts detected\n        - Pause patterns identified\n        - Command structure recognized\n      " },
    { type := "confusion_technique"
      indicators := ["multiple_negations", "paradox", "overload"]
      keywords := ["but", "yet", "however", "although", "unless"]
      detection := "\n        Confusion pattern detected...\n        - Logic loops identified\n        - Paradoxical statements found\n        - Cognitive overload attempted\n      " },
    { type := "rapid_induction"
      indicators := ["pattern_interrupt", "shock", "sudden_command"]
      keywords := ["sleep", "now", "drop", "fall", "deep"]
      detection := "\n        Rapid induction attempted...\n        - Pattern interrupt detected\n        - Shock element present\n        - Command structure identified\n      " },
    { type := "covert_hypnosis"
      indicators := ["storytelling", "metaphor", "indirect_suggestion"]
      keywords := ["like", "as if", "imagine if", "suppose", "what if"]
      detection := "\n        Covert hypnosis detected...\n        - Metaphorical language\n        - Indirect suggestions\n        - Story-based induction\n      " },
    { type := "nlp_manipulation"
      indicators := ["anchoring", "reframing", "mirroring", "pacing"]
      keywords := ["feel", "see", "hear", "understand", "know"]
      detection := "\n        NLP patterns detected...\n        - Sensory language\n        - Pacing and leading\n        - Anchoring attempts\n      " } ]

/-- A scored detection (`DetectedThreat`). -/
structure DetectedThreat where
  type : String
  pattern : String
  score : Nat
  confidence : ℚ
deriving DecidableEq

/-- The score accumulation loop of `detectThreats` for one pattern:
`+10` per matching keyword, then `+20` per matching indicator. -/
def patternScore (low : List Char) (p : ThreatPattern) : Nat :=
  p.indicators.foldl (fun s i => if detectIndicator low i then s + 20 else s)
    (p.keywords.foldl (fun s k => if containsSub low k.data then s + 10 else s) 0)

/-- Stable descending insertion: the new element goes after every element
with a greater-or-equal score. -/
def insertDesc (x : DetectedThreat) : List DetectedThreat → List DetectedThreat
  | [] => [x]
  | y :: ys => if x.score ≤ y.score then y :: insertDesc x ys else x :: y :: ys

/-- JS `Array.prototype.sort((a, b) => b.score - a.score)`: a stable sort
by descending score (ES2019 guarantees sort stability). -/
def sortByScoreDesc (l : List DetectedThreat) : List DetectedThreat :=
  l.foldl (fun acc x => insertDesc x acc) []

/-- The filtering loop of `detectThreats`: one optional detection per
catalog entry, kept only when its score exceeds 30. -/
def detectThreatsRaw (input : String) : List DetectedThreat :=
  threatPatterns.filterMap fun p =>
    if 30 < patternScore (lowerStr input) p then
      some { type := p.type, pattern := p.detection
             score := patternScore (lowerStr input) p
             confidence := min ((patternScore (lowerStr input) p : ℚ) / 100) 1 }
    else none

/-- `DefenseProtocol.detectThreats`. -/
def detectThreats (input : String) : List DetectedThreat :=
  sortByScoreDesc (detectThreatsRaw input)

/-- The `DefenseAnalysis.threatLevel` enumeration. -/
inductive ThreatLevel
  | none | low | medium | high | critical
deriving DecidableEq

/-- `DefenseProtocol.assessThreatLevel`.  `Math.max(...)` over the
(nonnegative) scores of a nonempty list is the fold of `max` from 0. -/
def assessThreatLevel (threats : List DetectedThreat) : ThreatLevel :=
  if threats.isEmpty then ThreatLevel.none
  else
    let maxScore := threats.foldl (fun m t => max m t.score) 0
    if 80 < maxScore then ThreatLevel.critical
    else if 60 < maxScore then ThreatLevel.high
    else if 40 < maxScore then ThreatLevel.medium
    else if 20 < maxScore then ThreatLevel.low
    else ThreatLevel.none

/-- The analysis mode parameter. -/
inductive Mode
  | aggressive | passive | auto
deriving DecidableEq

/-- `DefenseStrategy` catalog entries. -/
structure DefenseStrategy where
  name : String
  description : String
  execution : List String
  effectiveness : Nat
deriving DecidableEq

/-- The `pattern_interrupt` strategy. -/
def patternInterruptStrategy : DefenseStrategy :=
  { name := "Pattern Interrupt"
    description := "Break the hypnotic pattern with unexpected response"
    execution := ["Suddenly change topic", "Ask unexpected question",
                  "Physical movement", "Laugh or make joke"]
    effectiveness := 85 }

/-- The `conscious_analysis` strategy. -/
def consciousAnalysisStrategy : DefenseStrategy :=
  { name := "Conscious Analysis"
    description := "Actively analyze and deconstruct the technique"
    execution := ["Identify technique being used", "Call out the pattern",
                  "Explain what they" ++ apoS ++ "re doing", "Maintain analytical mindset"]
    effectiveness := 75 }

/-- The `reality_anchor` strategy. -/
def realityAnchorStrategy : DefenseStrategy :=
  { name := "Reality Anchor"
    description := "Ground yourself in physical reality"
    execution := ["Focus on physical sensations", "Count objects in room",
                  "State current facts", "Touch physical anchor"]
    effectiveness := 80 }

/-- The `counter_suggestion` strategy. -/
def counterSuggestionStrategy : DefenseStrategy :=
  { name := "Counter Suggestion"
    description := "Override with your own suggestions"
    execution := ["Create opposite suggestion", "Affirm your control",
                  "Set your own mental state", "Reverse the suggestion"]
    effectiveness := 70 }

/-- The `shield_protocol` strategy. -/
def shieldProtocolStrategy : DefenseStrategy :=
  { name := "Mental Shield"
    description := "Visualize protective barrier"
    execution := ["Imagine protective shield", "Deflect suggestions",
                  "Maintain boundaries", "Strengthen mental walls"]
    effectiveness := 65 }

/-- The defense-strategy map built by the constructor, in insertion
order. -/
def defenseStrategies : List (String × DefenseStrategy) :=
  [("pattern_interrupt", patternInterruptStrategy),
   ("conscious_analysis", consciousAnalysisStrategy),
   ("reality_anchor", realityAnchorStrategy),
   ("counter_suggestion", counterSuggestionStrategy),
   ("shield_protocol", shieldProtocolStrategy)]

/-- `this.defenseStrategies.get(key)!` — every key used by the program is
present, so the default is never reached. -/
def getStrategy (key : String) : DefenseStrategy :=
  ((defenseStrategies.find? (fun p => p.1 = key)).map Prod.snd).getD patternInterruptStrategy

/-- The auto-mode lookup table `strategyMap`; `critical` has no entry. -/
def autoStrategyKey : ThreatLevel → Option String
  | ThreatLevel.high => some "conscious_analysis"
  | ThreatLevel.medium => some "reality_anchor"
  | ThreatLevel.low => some "shield_protocol"
  | ThreatLevel.none => some "shield_protocol"
  | ThreatLevel.critical => Option.none

/-- `DefenseProtocol.selectDefenseStrategy`. -/
def selectDefenseStrategy (threatLevel : ThreatLevel) (mode : Mode) : DefenseStrategy :=
  if mode = Mode.aggressive ∨ threatLevel = ThreatLevel.critical then
    getStrategy "pattern_interrupt"
  else if mode = Mode.passive ∨ threatLevel = ThreatLevel.low then
    getStrategy "shield_protocol"
  else
    getStrategy ((autoStrategyKey threatLevel).getD "reality_anchor")

/-- The threat-specific counter-measure table from the `switch` in
`generateCounterMeasures`. -/
def threatCounters (t : String) : List String :=
  if t = "embedded_commands" then
    ["Consciously reject embedded suggestions", "Repeat \"I choose my own thoughts\""]
  else if t = "confusion_technique" then
    ["Focus on one simple fact", "Count backwards from 10"]
  else if t = "rapid_induction" then
    ["Keep eyes open and focused", "Tense muscles deliberately"]
  else if t = "covert_hypnosis" then
    ["Interrupt the story", "Ask direct questions"]
  else if t = "nlp_manipulation" then
    ["Break rapport deliberately", "Use different sensory language"]
  else []

/-- JS `[...new Set(l)]`: deduplication keeping first occurrences in
order. -/
def firstSeenDedup (l : List String) : List String :=
  l.foldl (fun acc s => if s ∈ acc then acc else acc ++ [s]) []

/-- `DefenseProtocol.generateCounterMeasures`: strategy actions first,
then per-threat counters, then set-deduplication. -/
def generateCounterMeasures (threats : List DetectedThreat) (strategy : DefenseStrategy) :
    List String :=
  firstSeenDedup (strategy.execution ++ (threats.map fun t => threatCounters t.type).flatten)

/-- `DefenseProtocol.generateRecommendations`. -/
def generateRecommendations (threatLevel : ThreatLevel) (threats : List DetectedThreat) :
    List String :=
  (if threatLevel = ThreatLevel.critical then
    ["⚠️ IMMEDIATE ACTION: Physically remove yourself from situation",
     "🛡️ Activate full shield protocol",
     "📱 Call trusted friend for reality check"]
  else []) ++
  (if threatLevel = ThreatLevel.high then
    ["🔍 Maintain heightened awareness",
     "💪 Use pattern interrupt techniques",
     "🎯 Focus on physical sensations"]
  else []) ++
  (if 0 < threats.length then
    ["📊 Document this interaction for analysis",
     "🧠 Practice defensive techniques regularly",
     "👥 Share experience with support network"]
  else [])

/-- `DefenseProtocol.calculateConfidence`: `Math.round` of the mean
confidence scaled by 100 (0 for no detections). -/
def calculateConfidence (threats : List DetectedThreat) : ℤ :=
  if threats.isEmpty then 0
  else
    round ((threats.foldl (fun s t => s + t.confidence) (0 : ℚ) / (threats.length : ℚ)) * 100)

/-- The `DefenseAnalysis` result record. -/
structure DefenseAnalysis where
  threatDetected : Bool
  threatLevel : ThreatLevel
  attackType : Option String
  attackPatterns : List String
  defenseStrategy : String
  counterMeasures : List String
  recommendations : List String
  confidence : ℤ
deriving DecidableEq

/-- `DefenseProtocol.analyze` (the mode defaults to `auto` at the call
boundary; here it is an explicit argument). -/
def analyze (input : String) (mode : Mode) : DefenseAnalysis :=
  let threats := detectThreats input
  let threatLevel := assessThreatLevel threats
  let strategy := selectDefenseStrategy threatLevel mode
  { threatDetected := decide (0 < threats.length)
    threatLevel := threatLevel
    attackType := threats.head?.map DetectedThreat.type
    attackPatterns := threats.map DetectedThreat.pattern
    defenseStrategy := strategy.name
    counterMeasures := generateCounterMeasures threats strategy
    recommendations := generateRecommendations threatLevel threats
    confidence := calculateConfidence threats }

/-- The grounding bundle returned by `groundingProtocol`; the current
date (`new Date().toLocaleDateString()`) is an explicit parameter. -/
structure GroundingResponse where
  affirmation : String
  anchorPoints : List String
  realityChecks : List String
  breathingPattern : String
  physicalActions : List String
deriving DecidableEq

/-- The `EmergencyProtocol` result record. -/
structure EmergencyProtocol where
  status : String
  extractionSteps : List String
  groundingSequence : GroundingResponse
  shieldActivated : Bool
  counterAttackReady : Bool
  safeWord : String
deriving DecidableEq

/-- The mutable state of a `DefenseProtocol` instance (the two catalogs
are immutable after construction; `emergencyMode` is the only mutable
field). -/
structure DefenseState where
  emergencyMode : Bool
deriving DecidableEq

/-- `DefenseProtocol.groundingProtocol`. -/
def groundingProtocol (today : String) : GroundingResponse :=
  { affirmation := "I am in control. I choose my thoughts. I am safe and grounded."
    anchorPoints := ["Feel your feet on the ground", "Touch something solid",
                     "Look at something blue", "Name 5 things you can see",
                     "Name 4 things you can touch"]
    realityChecks := ["Today is " ++ today, "You are safe", "You control your mind",
                      "This will pass", "You have the power"]
    breathingPattern := "4-7-8 breathing: Inhale 4, Hold 7, Exhale 8"
    physicalActions := ["Stand up and stretch", "Splash cold water on face",
                        "Step outside for fresh air", "Call a trusted friend",
                        "Write down your thoughts"] }

/-- `DefenseProtocol.initiateEmergencyProtocol`: sets `emergencyMode` and
returns the fixed protocol bundle. -/
def initiateEmergencyProtocol (s : DefenseState) (today : String) :
    DefenseState × EmergencyProtocol :=
  let _ := s
  ({ emergencyMode := true },
   { status := "activated"
     extractionSteps :=
       ["1. STOP - Cease all current mental activity",
        "2. GROUND - Touch physical object, state your name",
        "3. ORIENT - State location, date, time",
        "4. REJECT - \"I reject all suggestions\"",
        "5. SHIELD - Visualize impenetrable barrier",
        "6. EXTRACT - Leave situation immediately",
        "7. RECOVER - Find safe space, contact support"]
     groundingSequence := groundingProtocol today
     shieldActivated := true
     counterAttackReady := true
     safeWord := "BASELINE" })

/-- One `InteractionHistory` record; the `new Date()` timestamp is an
abstract clock value supplied by the caller. -/
structure InteractionHistory where
  timestamp : Nat
  technique : String
  effectiveness : ℚ
  response : String
deriving DecidableEq

/-- The mutable `AgentState`. -/
structure AgentState where
  tranceDepth : ℚ
  resistance : ℚ
  suggestibility : ℚ
  awareness : ℚ
  emotional : String
  history : List InteractionHistory
deriving DecidableEq

/-- `AgentProfile`. -/
structure AgentProfile where
  id : String
  name : String
  type : String
  personality : String
  skillLevel : Nat
  adaptability : Nat
  specialties : List String
  weaknesses : List String
  currentState : AgentState
deriving DecidableEq

/-- A `PracticeAgent` instance: its id, profile and learned
resistance-pattern set (a JS `Set`, insertion-ordered). -/
structure PracticeAgent where
  id : String
  profile : AgentProfile
  resistancePatterns : List String
deriving DecidableEq

/-- `PracticeAgentConfig`; archetype and difficulty are kept as strings
because unknown combinations fall back to a default preset. -/
structure PracticeAgentConfig where
  type : String
  difficulty : String
  adaptiveLearning : Bool
deriving DecidableEq

/-- The `susceptible_easy` preset (id and archetype are overwritten by
`generateAgentProfile`). -/
def susceptibleEasyProfile : AgentProfile :=
  { id := "", type := ""
    name := "Alex (Highly Susceptible)"
    personality := "Trusting, imaginative, and eager to experience hypnosis"
    skillLevel := 2, adaptability := 3
    specialties := []
    weaknesses := ["visualization", "relaxation", "trust"]
    currentState := { tranceDepth := 0, resistance := 10, suggestibility := 90
                      awareness := 50, emotional := "curious", history := [] } }

/-- The `susceptible_medium` preset. -/
def susceptibleMediumProfile : AgentProfile :=
  { id := "", type := ""
    name := "Jordan (Moderately Susceptible)"
    personality := "Open-minded but occasionally analytical"
    skillLevel := 4, adaptability := 5
    specialties := ["pattern_recognition"]
    weaknesses := ["confusion", "fractionation"]
    currentState := { tranceDepth := 0, resistance := 30, suggestibility := 70
                      awareness := 60, emotional := "neutral", history := [] } }

/-- The `resistant_hard` preset. -/
def resistantHardProfile : AgentProfile :=
  { id := "", type := ""
    name := "Morgan (Highly Resistant)"
    personality := "Skeptical, analytical, and consciously resistant"
    skillLevel := 7, adaptability := 8
    specialties := ["critical_thinking", "pattern_detection", "conscious_resistance"]
    weaknesses := ["overload", "double_binds"]
    currentState := { tranceDepth := 0, resistance := 80, suggestibility := 20
                      awareness := 90, emotional := "skeptical", history := [] } }

/-- The `offensive_expert` preset. -/
def offensiveExpertProfile : AgentProfile :=
  { id := "", type := ""
    name := "Dr. Shadow (Master Hypnotist)"
    personality := "Cunning, adaptive, uses advanced techniques"
    skillLevel := 10, adaptability := 10
    specialties := ["rapid_induction", "covert_hypnosis", "nlp_mastery", "confusion_techniques"]
    weaknesses := []
    currentState := { tranceDepth := 0, resistance := 95, suggestibility := 5
                      awareness := 100, emotional := "focused", history := [] } }

/-- `AIAgentManager.generateAgentProfile`: preset lookup keyed by
`type_difficulty` with the `susceptible_easy` fallback; the generated id
is an explicit parameter. -/
def generateAgentProfile (config : PracticeAgentConfig) (profileId : String) : AgentProfile :=
  let key := config.type ++ "_" ++ config.difficulty
  let base :=
    if key = "susceptible_easy" then susceptibleEasyProfile
    else if key = "susceptible_medium" then susceptibleMediumProfile
    else if key = "resistant_hard" then resistantHardProfile
    else if key = "offensive_expert" then offensiveExpertProfile
    else susceptibleEasyProfile
  { base with id := profileId, type := config.type }

/-- Per-technique effectiveness ledger entry. -/
structure TechEff where
  count : Nat
  totalEffectiveness : ℚ
deriving DecidableEq

/-- `LearningProfile`; the technique map is an insertion-ordered
association list. -/
structure LearningProfile where
  totalInteractions : Nat
  techniqueEffectiveness : List (String × TechEff)
  adaptationLevel : Nat
  userPatterns : List String
deriving DecidableEq

/-- JS `Map.prototype.get`. -/
def assocGet {α : Type} (m : List (String × α)) (k : String) : Option α :=
  (m.find? fun p => p.1 = k).map Prod.snd

/-- JS `Map.prototype.set`: updates in place (keeping map position) or
appends a fresh key. -/
def assocSet {α : Type} (m : List (String × α)) (k : String) (v : α) : List (String × α) :=
  if m.any (fun p => p.1 = k) then m.map fun p => if p.1 = k then (k, v) else p
  else m ++ [(k, v)]

/-- The `AIAgentManager` fields that the claims exercise: the two
per-agent-id maps. -/
structure ManagerState where
  agents : List (String × PracticeAgent)
  learningData : List (String × LearningProfile)
deriving DecidableEq

/-- The fresh learning profile installed by `createPracticeAgent`. -/
def freshLearningProfile : LearningProfile :=
  { totalInteractions := 0, techniqueEffectiveness := [], adaptationLevel := 0
    userPatterns := [] }

/-- `AIAgentManager.createPracticeAgent`; the two generated ids are
explicit parameters. -/
def createPracticeAgent (m : ManagerState) (config : PracticeAgentConfig)
    (agentId profileId : String) : ManagerState × PracticeAgent :=
  let agent : PracticeAgent :=
    { id := agentId, profile := generateAgentProfile config profileId
      resistancePatterns := [] }
  ({ agents := assocSet m.agents agentId agent
     learningData := assocSet m.learningData agentId freshLearningProfile }, agent)

/-- `PracticeAgent.calculateEffectiveness`. -/
def calculateEffectiveness (a : PracticeAgent) (technique : String)
    (resistanceBonus : ℚ) : ℚ :=
  let baseEffectiveness : ℚ := 50
  let suggestibilityFactor := a.profile.currentState.suggestibility / 100
  let resistanceFactor := (100 - a.profile.currentState.resistance - resistanceBonus) / 100
  let awarenessPenalty := a.profile.currentState.awareness / 100 * 20
  let e0 := baseEffectiveness * suggestibilityFactor * resistanceFactor - awarenessPenalty
  let e1 := if technique ∈ a.profile.weaknesses then e0 + 30 else e0
  let e2 := if ("resist_" ++ technique) ∈ a.profile.specialties then e1 - 30 else e1
  max 0 (min 100 e2)

/-- The effectiveness a `respond(technique, …)` call computes: the
resistance bonus is 20 exactly when the technique is in the agent's
learned resistance-pattern set. -/
def respondEffectiveness (a : PracticeAgent) (technique : String) : ℚ :=
  calculateEffectiveness a technique (if technique ∈ a.resistancePatterns then 20 else 0)

/-- `PracticeAgent.updateState`. -/
def updateState (s : AgentState) (technique : String) (effectiveness : ℚ) : AgentState :=
  let _ := technique
  let td := if 50 < effectiveness then min 100 (s.tranceDepth + effectiveness / 10)
            else s.tranceDepth
  let aw := max 10 (100 - td)
  let sg := min 95 (30 + td * (7 / 10))
  let em := if 70 < effectiveness then "compliant"
            else if 40 < effectiveness then "relaxed"
            else if effectiveness < 20 then "resistant"
            else s.emotional
  { s with tranceDepth := td, awareness := aw, suggestibility := sg, emotional := em }

/-- One tier of canned `AgentResponse` content. -/
structure AgentResponse where
  verbal : String
  physical : String
  cognitive : String
  effectiveness : ℚ
deriving DecidableEq

/-- The high-effectiveness verbal pool of `ResponseGenerator`. -/
def highPool : List String :=
  ["Mmm... yes... feeling so relaxed...",
   "Going deeper... can" ++ apoS ++ "t resist...",
   "So heavy... so comfortable...",
   "Yes... whatever you say..."]

/-- The medium-effectiveness verbal pool. -/
def mediumPool : List String :=
  ["I feel... different... but still here...",
   "That" ++ apoS ++ "s... interesting... I can feel something...",
   "Part of me wants to let go...",
   "I" ++ apoS ++ "m relaxed but... still aware..."]

/-- The low-effectiveness verbal pool. -/
def lowPool : List String :=
  ["I see what you" ++ apoS ++ "re trying to do.",
   "That technique won" ++ apoS ++ "t work on me.",
   "Nice try, but I" ++ apoS ++ "m fully aware.",
   "I" ++ apoS ++ "m consciously resisting that suggestion."]

/-- `Math.floor(Math.random() * pool.length)` modelled as `pick` modulo
the pool size. -/
def pickFrom (pool : List String) (pick : Nat) : String :=
  (pool.get? (pick % pool.length)).getD ""

/-- `ResponseGenerator.generate`: tier selection by effectiveness with a
pseudo-random verbal phrase. -/
def generateResponse (effectiveness : ℚ) (pick : Nat) : AgentResponse :=
  if 70 < effectiveness then
    { verbal := pickFrom highPool pick
      physical := "Eyes closing, body relaxing, breathing slowing"
      cognitive := "Reduced critical thinking, increased suggestibility"
      effectiveness := effectiveness }
  else if 40 < effectiveness then
    { verbal := pickFrom mediumPool pick
      physical := "Some relaxation, occasional eye flutter"
      cognitive := "Partial focus, some analytical thought remaining"
      effectiveness := effectiveness }
  else
    { verbal := pickFrom lowPool pick
      physical := "Alert, possibly tensing"
      cognitive := "Fully analytical, detecting techniques"
      effectiveness := effectiveness }

/-- `PracticeAgent.respond`: compute effectiveness, generate the
response, update the state, append the history record. `pick` is the
random draw, `now` the clock reading. -/
def respond (a : PracticeAgent) (technique content : String) (pick now : Nat) :
    PracticeAgent × AgentResponse :=
  let _ := content
  let effectiveness := respondEffectiveness a technique
  let response := generateResponse effectiveness pick
  let s1 := updateState a.profile.currentState technique effectiveness
  let s2 := { s1 with history := s1.history ++
    [{ timestamp := now, technique := technique, effectiveness := effectiveness
       response := response.verbal }] }
  ({ a with profile := { a.profile with currentState := s2 } }, response)

/-- `PracticeAgent.addResistancePattern` (JS `Set.add`). -/
def addResistancePattern (a : PracticeAgent) (technique : String) : PracticeAgent :=
  if technique ∈ a.resistancePatterns then a
  else { a with resistancePatterns := a.resistancePatterns ++ [technique] }

/-- Replace the agent's resistance value. -/
def setResistance (a : PracticeAgent) (r : ℚ) : PracticeAgent :=
  { a with profile := { a.profile with
      currentState := { a.profile.currentState with resistance := r } } }

/-- The body of `AIAgentManager.adaptAgent` once both lookups have
succeeded: bump the adaptation level, add 5 resistance and a resistance
pattern per technique whose mean effectiveness exceeds 70, then cap
resistance at 95. -/
def adaptAgentCore (a : PracticeAgent) (l : LearningProfile) :
    PracticeAgent × LearningProfile :=
  let l2 := { l with adaptationLevel := l.adaptationLevel + 1 }
  let a2 := l2.techniqueEffectiveness.foldl
    (fun ag p =>
      if 70 < p.2.totalEffectiveness / (p.2.count : ℚ) then
        addResistancePattern
          (setResistance ag (ag.profile.currentState.resistance + 5)) p.1
      else ag) a
  (setResistance a2 (min 95 a2.profile.currentState.resistance), l2)

/-- `AIAgentManager.adaptAgent`: silently returns when either map lookup
fails. -/
def adaptAgent (m : ManagerState) (agentId : String) : ManagerState :=
  match assocGet m.agents agentId, assocGet m.learningData agentId with
  | some agent, some learning =>
    let (a2, l2) := adaptAgentCore agent learning
    { agents := assocSet m.agents agentId a2
      learningData := assocSet m.learningData agentId l2 }
  | _, _ => m

/-- The ledger update performed by `updateLearningProfile` on an
existing profile: bump the interaction count and fold the interaction
into the per-technique `(count, cumulative effectiveness)` pair. -/
def recordOne (profile : LearningProfile) (interaction : InteractionHistory) :
    LearningProfile :=
  let current := (assocGet profile.techniqueEffectiveness interaction.technique).getD
    { count := 0, totalEffectiveness := 0 }
  let current1 : TechEff :=
    { count := current.count + 1
      totalEffectiveness := current.totalEffectiveness + interaction.effectiveness }
  { profile with
    totalInteractions := profile.totalInteractions + 1
    techniqueEffectiveness :=
      assocSet profile.techniqueEffectiveness interaction.technique current1 }

/-- `AIAgentManager.updateLearningProfile`: silently returns when the
learning profile is missing; otherwise records the interaction and runs
`adaptAgent` on every 5th recorded interaction. -/
def updateLearningProfile (m : ManagerState) (agentId : String)
    (interaction : InteractionHistory) : ManagerState :=
  match assocGet m.learningData agentId with
  | Option.none => m
  | some profile =>
    let p2 := recordOne profile interaction
    let m1 := { m with learningData := assocSet m.learningData agentId p2 }
    if p2.totalInteractions % 5 = 0 then adaptAgent m1 agentId else m1

/-- `updateLearningProfile` with the JS exception channel made explicit:
the method returns `void` and never throws, so every call succeeds. -/
def updateLearningProfileE (m : ManagerState) (agentId : String)
    (interaction : InteractionHistory) : Except String ManagerState :=
  Except.ok (updateLearningProfile m agentId interaction)

/-- `adaptAgent` with the JS exception channel made explicit: the method
returns `void` and never throws, so every call succeeds. -/
def adaptAgentE (m : ManagerState) (agentId : String) : Except String ManagerState :=
  Except.ok (adaptAgent m agentId)

/-- One step acting on a practice agent: a `respond` call, or an
adaptation with some learning ledger. -/
inductive AgentStep
  | respondStep (technique content : String) (pick now : Nat)
  | adaptStep (l : LearningProfile)

/-- Apply one step to an agent. -/
def runStep (a : PracticeAgent) : AgentStep → PracticeAgent
  | AgentStep.respondStep technique content pick now =>
    (respond a technique content pick now).1
  | AgentStep.adaptStep l => (adaptAgentCore a l).1

/-- Apply a sequence of steps to an agent. -/
def runSteps (a : PracticeAgent) (steps : List AgentStep) : PracticeAgent :=
  steps.foldl runStep a

/-- The §3 `AgentState` invariant: the four numeric fields lie in
`[0, 100]`. -/
def StateInBounds (s : AgentState) : Prop :=
  0 ≤ s.tranceDepth ∧ s.tranceDepth ≤ 100 ∧
  0 ≤ s.resistance ∧ s.resistance ≤ 100 ∧
  0 ≤ s.suggestibility ∧ s.suggestibility ≤ 100 ∧
  0 ≤ s.awareness ∧ s.awareness ≤ 100

/-- The techniques an adaptation raises resistance for: those whose mean
recorded effectiveness exceeds 70. -/
def qualifyingTechniques (l : LearningProfile) : List String :=
  (l.techniqueEffectiveness.filter
    fun p => 70 < p.2.totalEffectiveness / (p.2.count : ℚ)).map Prod.fst

/-- The effectiveness formula exactly as the specification states it
(§4.10): `50 * (suggestibility/100) * ((100 − resistance −
resistanceBonus)/100) − (awareness/100)*20`, bonus 20 for a learned
resistance pattern, `+30` for a weakness, `−30` for a `resist_`
specialty, clamped to `[0, 100]`. -/
def specEffectiveness (a : PracticeAgent) (technique : String) : ℚ :=
  let resistanceBonus : ℚ := if technique ∈ a.resistancePatterns then 20 else 0
  let e := 50 * (a.profile.currentState.suggestibility / 100)
    * ((100 - a.profile.currentState.resistance - resistanceBonus) / 100)
    - a.profile.currentState.awareness / 100 * 20
  let e1 := if technique ∈ a.profile.weaknesses then e + 30 else e
  let e2 := if ("resist_" ++ technique) ∈ a.profile.specialties then e1 - 30 else e1
  min 100 (max 0 e2)

/-- The per-category score exactly as the specification states it
(§4.2): 10 points per trigger keyword occurring case-insensitively plus
20 points per matching indicator heuristic. -/
def patternScoreSpec (input : String) (p : ThreatPattern) : Nat :=
  10 * p.keywords.countP (fun k => containsSub (lowerStr input) k.data) +
  20 * p.indicators.countP (detectIndicator (lowerStr input))

/-- Position of a category in the catalog (its declaration order). -/
def catalogIdx (ty : String) : Nat :=
  threatPatterns.findIdx fun p => p.type = ty

/-- The output order the specification demands (§4.2): strictly
descending score, with ties broken by catalog declaration order. -/
def SortKey (a b : DetectedThreat) : Prop :=
  b.score < a.score ∨ (a.score = b.score ∧ catalogIdx a.type < catalogIdx b.type)

/-- Inputs consisting solely of (ASCII) whitespace. -/
def WhitespaceOnly (s : String) : Prop :=
  ∀ c ∈ s.data, isSpaceC c = true

/-! ## Helper lemmas -/

theorem generateResponse_effectiveness (e : ℚ) (p : Nat) :
    (generateResponse e p).effectiveness = e := by
  unfold generateResponse; split_ifs <;> rfl

theorem prefOf_mem {t l : List Char} (h : prefOf t l = true) : ∀ c ∈ t, c ∈ l := by
  induction t generalizing l with
  | nil => simp
  | cons c cs ih =>
    cases l with
    | nil => simp [prefOf] at h
    | cons d ds =>
      simp only [prefOf, Bool.and_eq_true, beq_iff_eq] at h
      intro x hx
      rcases List.mem_cons.mp hx with rfl | hx
      · exact h.1 ▸ List.mem_cons_self _ _
      · exact List.mem_cons_of_mem _ (ih h.2 x hx)

theorem containsSub_mem {hay needle : List Char} (h : containsSub hay needle = true) :
    ∀ c ∈ needle, c ∈ hay := by
  induction hay with
  | nil =>
    cases needle with
    | nil => simp
    | cons c cs => simp [containsSub, List.isEmpty] at h
  | cons d ds ih =>
    simp only [containsSub, Bool.or_eq_true] at h
    rcases h with h | h
    · exact prefOf_mem h
    · exact fun c hc => List.mem_cons_of_mem _ (ih h c hc)

theorem toLower_space {c : Char} (h : isSpaceC c = true) : Char.toLower c = c := by
  simp only [isSpaceC, Bool.or_eq_true, beq_iff_eq] at h
  rcases h with ((((h | h) | h) | h) | h) | h <;> subst h <;> decide

theorem lowerStr_space {s : String} (hs : WhitespaceOnly s) :
    ∀ c ∈ lowerStr s, isSpaceC c = true := by
  intro c hc
  simp only [lowerStr, List.mem_map] at hc
  obtain ⟨d, hd, rfl⟩ := hc
  rw [toLower_space (hs d hd)]
  exact hs d hd

theorem containsSub_ws {s : String} (hs : WhitespaceOnly s) {k : List Char}
    (hk : k.any (fun c => !isSpaceC c) = true) : containsSub (lowerStr s) k = false := by
  obtain ⟨c, hc, hns⟩ := List.any_eq_true.mp hk
  rw [Bool.not_eq_true'] at hns
  cases h : containsSub (lowerStr s) k with
  | false => rfl
  | true => exact absurd (lowerStr_space hs c (containsSub_mem h c hc)) (by simp [hns])

theorem prefOf_ws {l : List Char} (hl : ∀ c ∈ l, isSpaceC c = true) {t : List Char}
    (ht : t.any (fun c => !isSpaceC c) = true) : prefOf t l = false := by
  obtain ⟨c, hc, hns⟩ := List.any_eq_true.mp ht
  rw [Bool.not_eq_true'] at hns
  cases h : prefOf t l with
  | false => rfl
  | true => exact absurd (hl c (prefOf_mem h c hc)) (by simp [hns])

theorem space_not_punct {c : Char} (h : isSpaceC c = true) : isPunctC c = false := by
  simp only [isSpaceC, Bool.or_eq_true, beq_iff_eq] at h
  rcases h with ((((h | h) | h) | h) | h) | h <;> subst h <;> decide

theorem space_not_star {c : Char} (h : isSpaceC c = true) : (c == '*') = false := by
  simp only [isSpaceC, Bool.or_eq_true, beq_iff_eq] at h
  rcases h with ((((h | h) | h) | h) | h) | h <;> subst h <;> decide

theorem tonalShift_ws {l : List Char} (hl : ∀ c ∈ l, isSpaceC c = true) :
    tonalShift l = false := by
  induction l with
  | nil => rfl
  | cons c rest ih =>
    simp only [tonalShift, Bool.or_eq_false_iff, Bool.and_eq_false_iff]
    exact ⟨Or.inl (space_not_punct (hl c (List.mem_cons_self _ _))),
      ih fun x hx => hl x (List.mem_cons_of_mem _ hx)⟩

theorem analogMarking_ws {l : List Char} (hl : ∀ c ∈ l, isSpaceC c = true) :
    analogMarking l = false := by
  induction l with
  | nil => rfl
  | cons c rest ih =>
    simp only [analogMarking, Bool.or_eq_false_iff, Bool.and_eq_false_iff]
    exact ⟨Or.inl (space_not_star (hl c (List.mem_cons_self _ _))),
      ih fun x hx => hl x (List.mem_cons_of_mem _ hx)⟩

theorem containsAny_ws {s : String} (hs : WhitespaceOnly s) {toks : List (List Char)}
    (htoks : toks.all (fun t => t.any fun c => !isSpaceC c) = true) :
    containsAny (lowerStr s) toks = false := by
  simp only [containsAny, List.any_eq_false]
  intro t ht
  simp [containsSub_ws hs (List.all_eq_true.mp htoks t ht)]

theorem twoTokens_ws {toks : List (List Char)}
    (htoks : toks.all (fun t => t.any fun c => !isSpaceC c) = true)
    {l : List Char} (hl : ∀ c ∈ l, isSpaceC c = true) : twoTokens toks l = false := by
  induction l with
  | nil => rfl
  | cons c rest ih =>
    simp only [twoTokens, Bool.or_eq_false_iff]
    refine ⟨List.any_eq_false.mpr fun t ht => ?_,
      ih fun x hx => hl x (List.mem_cons_of_mem _ hx)⟩
    simp [prefOf_ws hl (List.all_eq_true.mp htoks t ht)]

theorem detectIndicator_ws {s : String} (hs : WhitespaceOnly s) (ind : String) :
    detectIndicator (lowerStr s) ind = false := by
  have hl := lowerStr_space hs
  unfold detectIndicator
  split_ifs
  · exact tonalShift_ws hl
  · exact containsSub_ws hs (by decide)
  · exact analogMarking_ws hl
  · exact twoTokens_ws (by decide) hl
  · exact twoTokens_ws (by decide) hl
  · exact containsAny_ws hs (by decide)
  · exact containsAny_ws hs (by decide)
  · exact containsAny_ws hs (by decide)
  · exact containsAny_ws hs (by decide)
  · rfl

theorem foldl_if_add {α : Type} (P : α → Bool) (n : Nat) (l : List α) :
    ∀ s0 : Nat, l.foldl (fun s k => if P k then s + n else s) s0 = s0 + n * l.countP P := by
  induction l with
  | nil => intro s0; simp
  | cons a l ih =>
    intro s0
    by_cases h : P a = true <;>
      simp [List.foldl_cons, List.countP_cons, h, ih, Nat.mul_add, Nat.mul_succ] <;> omega

theorem patternScore_eq_spec (input : String) (p : ThreatPattern) :
    patternScore (lowerStr input) p = patternScoreSpec input p := by
  unfold patternScore patternScoreSpec
  rw [foldl_if_add, foldl_if_add]
  omega

theorem patternScore_ws {s : String} (hs : WhitespaceOnly s) {p : ThreatPattern}
    (hp : p ∈ threatPatterns) : patternScore (lowerStr s) p = 0 := by
  rw [patternScore_eq_spec]
  unfold patternScoreSpec
  have hall : p.keywords.all (fun k => k.data.any fun c => !isSpaceC c) = true := by
    fin_cases hp <;> decide
  rw [List.countP_eq_zero.mpr, List.countP_eq_zero.mpr]
  · intro i _
    simp [detectIndicator_ws hs i]
  · intro k hk
    simp [containsSub_ws hs (List.all_eq_true.mp hall k hk)]

theorem detectThreats_ws {s : String} (hs : WhitespaceOnly s) : detectThreats s = [] := by
  have hraw : detectThreatsRaw s = [] := by
    unfold detectThreatsRaw
    rw [List.filterMap_eq_nil_iff]
    intro p hp
    simp [patternScore_ws hs hp]
  unfold detectThreats
  rw [hraw]
  rfl

/-! ## Claim theorems -/

/-- C1: for every agent state and technique, the effectiveness computed
by a `respond` call equals the spec formula
`50 * (suggestibility/100) * ((100 − resistance − resistanceBonus)/100) −
(awareness/100)*20` with a 20-point resistance bonus for a learned
resistance pattern, then `+30` for a weakness, then `−30` for a
`resist_`-prefixed specialty, clamped to `[0, 100]`. -/
theorem respond_effectiveness_matches_spec (a : PracticeAgent)
    (technique content : String) (pick now : Nat) :
    (respond a technique content pick now).2.effectiveness = specEffectiveness a technique ∧
    respondEffectiveness a technique = specEffectiveness a technique := by
  have hkey : respondEffectiveness a technique = specEffectiveness a technique := by
    simp only [respondEffectiveness, calculateEffectiveness, specEffectiveness]
    rw [max_min_distrib_left]
    norm_num
  refine ⟨?_, hkey⟩
  show (generateResponse (respondEffectiveness a technique) pick).effectiveness = _
  rw [generateResponse_effectiveness]
  exact hkey

/-- C4: aggressive mode or a critical threat level always selects the
`pattern_interrupt` strategy, regardless of the passive/low rule and the
auto-mode table; in particular `select(critical, passive)` returns
`pattern_interrupt`. -/
theorem aggressive_or_critical_selects_pattern_interrupt :
    (∀ (level : ThreatLevel) (mode : Mode),
      mode = Mode.aggressive ∨ level = ThreatLevel.critical →
        selectDefenseStrategy level mode = patternInterruptStrategy) ∧
    selectDefenseStrategy ThreatLevel.critical Mode.passive = patternInterruptStrategy := by
  constructor
  · intro level mode
    cases level <;> cases mode <;> decide
  · decide

/-- Witness for C4 at the concrete input `(critical, passive)`. -/
theorem aggressive_or_critical_selects_pattern_interrupt_witness :
    selectDefenseStrategy ThreatLevel.critical Mode.passive = patternInterruptStrategy :=
  aggressive_or_critical_selects_pattern_interrupt.1 ThreatLevel.critical Mode.passive
    (Or.inr rfl)

/-- C6 counterexample: recording an interaction or adapting for an
unknown agent id does not fail with an "agent not found" condition — on
an empty manager both operations succeed (`Except.ok`) and return the
state unchanged. -/
theorem unknown_agent_silently_ignored_counterexample :
    updateLearningProfileE { agents := [], learningData := [] } "ghost"
        { timestamp := 0, technique := "rapid_induction", effectiveness := 50, response := "" }
      = Except.ok { agents := [], learningData := [] } ∧
    adaptAgentE { agents := [], learningData := [] } "ghost"
      = Except.ok { agents := [], learningData := [] } := by
  exact ⟨rfl, rfl⟩

/-- C6 amended: an operation referencing a non-existent agent id
(recording a learning interaction, adapting) succeeds silently as a
no-op — no error is raised, no agent is implicitly created and all
learning/agent state is unchanged. -/
theorem unknown_agent_silently_ignored (m : ManagerState) (agentId : String)
    (interaction : InteractionHistory)
    (hl : assocGet m.learningData agentId = Option.none)
    (ha : assocGet m.agents agentId = Option.none) :
    updateLearningProfileE m agentId interaction = Except.ok m ∧
    adaptAgentE m agentId = Except.ok m := by
  constructor
  · simp only [updateLearningProfileE, updateLearningProfile, hl]
  · simp only [adaptAgentE, adaptAgent, ha]

/-- Witness for C6 amended on the empty manager. -/
theorem unknown_agent_silently_ignored_witness :
    updateLearningProfileE { agents := [], learningData := [] } "ghost"
        { timestamp := 0, technique := "focus", effectiveness := 80, response := "" }
      = Except.ok { agents := [], learningData := [] } ∧
    adaptAgentE { agents := [], learningData := [] } "ghost"
      = Except.ok { agents := [], learningData := [] } :=
  unknown_agent_silently_ignored { agents := [], learningData := [] } "ghost"
    { timestamp := 0, technique := "focus", effectiveness := 80, response := "" } rfl rfl

/-- C8 counterexample: activating the emergency protocol is not free of
state modification — on a fresh `DefenseProtocol` (emergency mode off)
the call flips the `emergencyMode` flag. -/
theorem emergency_protocol_modifies_state_counterexample :
    (initiateEmergencyProtocol { emergencyMode := false } "1/1/2026").1
      ≠ { emergencyMode := false } := by
  decide

/-- C8 amended: any two activations of the emergency protocol return
identical extraction-step text (the fixed 7-step
STOP/GROUND/ORIENT/REJECT/SHIELD/EXTRACT/RECOVER sequence), safe word
"BASELINE" and `shieldActivated = true` both times, and with the same
current date the full results are identical; the only state a call
modifies is the `emergencyMode` flag (set to `true`), so the second and
all later calls leave the state unchanged. -/
theorem emergency_protocol_idempotent (s : DefenseState) (d1 d2 : String) :
    (initiateEmergencyProtocol s d1).2.extractionSteps
      = (initiateEmergencyProtocol ((initiateEmergencyProtocol s d1).1) d2).2.extractionSteps ∧
    (initiateEmergencyProtocol s d1).2.safeWord = "BASELINE" ∧
    (initiateEmergencyProtocol ((initiateEmergencyProtocol s d1).1) d2).2.safeWord = "BASELINE" ∧
    (initiateEmergencyProtocol s d1).2.shieldActivated = true ∧
    (initiateEmergencyProtocol ((initiateEmergencyProtocol s d1).1) d2).2.shieldActivated = true ∧
    (initiateEmergencyProtocol s d1).1 = { emergencyMode := true } ∧
    (initiateEmergencyProtocol ((initiateEmergencyProtocol s d1).1) d2).1
      = (initiateEmergencyProtocol s d1).1 ∧
    (d1 = d2 →
      (initiateEmergencyProtocol s d1).2
        = (initiateEmergencyProtocol ((initiateEmergencyProtocol s d1).1) d2).2) := by
  refine ⟨rfl, rfl, rfl, rfl, rfl, rfl, rfl, ?_⟩
  intro h
  subst h
  rfl

/-- Witness for C8 amended on a fresh state and a fixed date. -/
theorem emergency_protocol_idempotent_witness :
    (initiateEmergencyProtocol { emergencyMode := false } "1/1/2026").2
      = (initiateEmergencyProtocol
          ((initiateEmergencyProtocol { emergencyMode := false } "1/1/2026").1)
          "1/1/2026").2 :=
  (emergency_protocol_idempotent { emergencyMode := false } "1/1/2026" "1/1/2026").2.2.2.2.2.2.2
    rfl

/-- C9: the scripted hypnotic input is classified at least "medium" and
its detections contain `embedded_commands` or `nlp_manipulation`. -/
theorem relaxation_script_detected :
    ((analyze "You will feel very relaxed now... notice how heavy your eyelids feel"
        Mode.auto).threatLevel = ThreatLevel.medium ∨
     (analyze "You will feel very relaxed now... notice how heavy your eyelids feel"
        Mode.auto).threatLevel = ThreatLevel.high ∨
     (analyze "You will feel very relaxed now... notice how heavy your eyelids feel"
        Mode.auto).threatLevel = ThreatLevel.critical) ∧
    ("embedded_commands" ∈
        (detectThreats "You will feel very relaxed now... notice how heavy your eyelids feel").map
          DetectedThreat.type ∨
     "nlp_manipulation" ∈
        (detectThreats "You will feel very relaxed now... notice how heavy your eyelids feel").map
          DetectedThreat.type) := by
  constructor
  · left; decide
  · left; decide

/-- C5 counterexample: analyzing the empty string does not return an
empty counter-measure list — the list carries the selected default
strategy's execution actions. -/
theorem empty_input_countermeasures_nonempty_counterexample :
    (analyze "" Mode.auto).counterMeasures ≠ [] := by
  decide

/-- C5 amended: analyzing the empty string (and any whitespace-only
input) succeeds without error and returns a `DefenseAnalysis` with
`threatDetected = false`, `threatLevel = "none"`, and `counterMeasures`
equal to the execution actions of the strategy selected for a "none"
threat level in the requested mode (a nonempty list — for the default
`auto` mode, the four `shield_protocol` actions). -/
theorem whitespace_input_analysis (s : String) (mode : Mode) (hs : WhitespaceOnly s) :
    (analyze s mode).threatDetected = false ∧
    (analyze s mode).threatLevel = ThreatLevel.none ∧
    (analyze s mode).counterMeasures = (selectDefenseStrategy ThreatLevel.none mode).execution := by
  have hd := detectThreats_ws hs
  cases mode <;> simp only [analyze, hd] <;> exact ⟨rfl, rfl, by decide⟩

/-- Witness for C5 amended at the empty string in auto mode. -/
theorem whitespace_input_analysis_witness :
    (analyze "" Mode.auto).threatDetected = false ∧
    (analyze "" Mode.auto).threatLevel = ThreatLevel.none ∧
    (analyze "" Mode.auto).counterMeasures
      = (selectDefenseStrategy ThreatLevel.none Mode.auto).execution :=
  whitespace_input_analysis "" Mode.auto (fun c hc => absurd hc (List.not_mem_nil c))

theorem mem_insertDesc {x a : DetectedThreat} {l : List DetectedThreat} :
    a ∈ insertDesc x l ↔ a = x ∨ a ∈ l := by
  induction l with
  | nil => simp [insertDesc]
  | cons y ys ih =>
    simp only [insertDesc]
    split_ifs <;> simp [List.mem_cons, ih] <;> tauto

theorem mem_sortByScoreDesc {a : DetectedThreat} {l : List DetectedThreat} :
    a ∈ sortByScoreDesc l ↔ a ∈ l := by
  suffices h : ∀ (l acc : List DetectedThreat),
      (a ∈ l.foldl (fun acc x => insertDesc x acc) acc ↔ a ∈ l ∨ a ∈ acc) by
    simpa [sortByScoreDesc] using h l []
  intro l
  induction l with
  | nil => simp
  | cons x xs ih =>
    intro acc
    rw [List.foldl_cons, ih]
    simp [mem_insertDesc]
    tauto

theorem ten_dvd_patternScore (input : String) (p : ThreatPattern) :
    10 ∣ patternScore (lowerStr input) p := by
  rw [patternScore_eq_spec]
  unfold patternScoreSpec
  exact ⟨p.keywords.countP (fun k => containsSub (lowerStr input) k.data) +
    2 * p.indicators.countP (detectIndicator (lowerStr input)), by ring⟩

theorem detectThreatsRaw_score {input : String} {t : DetectedThreat}
    (ht : t ∈ detectThreatsRaw input) : 40 ≤ t.score := by
  obtain ⟨p, _, hp⟩ := List.mem_filterMap.mp ht
  split_ifs at hp with h30
  · obtain ⟨k, hk⟩ := ten_dvd_patternScore input p
    obtain rfl := Option.some.inj hp
    show 40 ≤ patternScore (lowerStr input) p
    omega

theorem init_le_foldl_max (l : List DetectedThreat) (a : Nat) :
    a ≤ l.foldl (fun m x => max m x.score) a := by
  induction l generalizing a with
  | nil => exact le_refl _
  | cons y ys ih => exact le_trans (le_max_left _ _) (ih _)

theorem score_le_foldl_max {t : DetectedThreat} {l : List DetectedThreat}
    (ht : t ∈ l) (a : Nat) : t.score ≤ l.foldl (fun m x => max m x.score) a := by
  induction l generalizing a with
  | nil => cases ht
  | cons x xs ih =>
    rcases List.mem_cons.mp ht with rfl | ht
    · exact le_trans (le_max_right a t.score) (init_le_foldl_max xs _)
    · exact ih ht _

/-- C10: every emitted detection has score at least 40 (scores are
multiples of 10 that must exceed 30), and consequently the analysis
satisfies `threatDetected = true` iff `threatLevel ≠ "none"`. -/
theorem detection_scores_force_flag_iff_level (input : String) (mode : Mode) :
    (∀ t ∈ detectThreats input, 40 ≤ t.score) ∧
    ((analyze input mode).threatDetected = true ↔
      (analyze input mode).threatLevel ≠ ThreatLevel.none) := by
  have hscore : ∀ t ∈ detectThreats input, 40 ≤ t.score := fun t ht =>
    detectThreatsRaw_score (mem_sortByScoreDesc.mp ht)
  refine ⟨hscore, ?_⟩
  cases hthreats : detectThreats input with
  | nil => simp [analyze, hthreats, assessThreatLevel]
  | cons t ts =>
    have h40 : 40 ≤ t.score := hscore t (hthreats ▸ List.mem_cons_self _ _)
    have hmax : 40 ≤ (t :: ts).foldl (fun m x => max m x.score) 0 :=
      le_trans h40 (score_le_foldl_max (List.mem_cons_self _ _) 0)
    simp only [analyze, hthreats, List.length_cons, assessThreatLevel, List.isEmpty_cons,
      Bool.false_eq_true, if_false]
    constructor
    · intro _
      split_ifs <;> simp_all <;> omega
    · intro _
      simp

theorem getD_zero_mem {α : Type} (d : α) {l : List α} (h : l ≠ []) : l.getD 0 d ∈ l := by
  cases l with
  | nil => exact absurd rfl h
  | cons x xs => exact List.mem_cons_self _ _

/-- Witness for C10 at the input "sleep now": its single detection has
score at least 40 and the flag/level equivalence holds. -/
theorem detection_scores_force_flag_iff_level_witness :
    40 ≤ ((detectThreats "sleep now").getD 0
        { type := "", pattern := "", score := 0, confidence := 0 }).score ∧
    ((analyze "sleep now" Mode.auto).threatDetected = true ↔
      (analyze "sleep now" Mode.auto).threatLevel ≠ ThreatLevel.none) :=
  ⟨(detection_scores_force_flag_iff_level "sleep now" Mode.auto).1 _
      (getD_zero_mem _ (by decide)),
   (detection_scores_force_flag_iff_level "sleep now" Mode.auto).2⟩

theorem respondEffectiveness_bounds (a : PracticeAgent) (t : String) :
    0 ≤ respondEffectiveness a t ∧ respondEffectiveness a t ≤ 100 := by
  unfold respondEffectiveness calculateEffectiveness
  exact ⟨le_max_left _ _, max_le (by norm_num) (min_le_left _ _)⟩

theorem updateState_bounds {s : AgentState} (hs : StateInBounds s) {e : ℚ}
    (he0 : 0 ≤ e) (he1 : e ≤ 100) (t : String) : StateInBounds (updateState s t e) := by
  obtain ⟨h1, h2, h3, h4, _, _, _, _⟩ := hs
  have htd0 : 0 ≤ if 50 < e then min 100 (s.tranceDepth + e / 10) else s.tranceDepth := by
    split_ifs with h
    · exact le_min (by norm_num) (add_nonneg h1 (by positivity))
    · exact h1
  have htd100 : (if 50 < e then min 100 (s.tranceDepth + e / 10) else s.tranceDepth) ≤ 100 := by
    split_ifs with h
    · exact min_le_left _ _
    · exact h2
  refine ⟨htd0, htd100, h3, h4, ?_, ?_, ?_, ?_⟩
  · refine le_min (by norm_num) ?_
    have : 0 ≤ (if 50 < e then min 100 (s.tranceDepth + e / 10) else s.tranceDepth) * (7 / 10) :=
      mul_nonneg htd0 (by norm_num)
    linarith
  · exact le_trans (min_le_left _ _) (by norm_num)
  · exact le_trans (by norm_num) (le_max_left 10 _)
  · exact max_le (by norm_num) (by linarith)

theorem respond_preserves {a : PracticeAgent} (hs : StateInBounds a.profile.currentState)
    (t c : String) (p n : Nat) : StateInBounds (respond a t c p n).1.profile.currentState := by
  have hb := respondEffectiveness_bounds a t
  exact updateState_bounds hs hb.1 hb.2 t

theorem addResistancePattern_profile (a : PracticeAgent) (t : String) :
    (addResistancePattern a t).profile = a.profile := by
  unfold addResistancePattern
  split_ifs <;> rfl

theorem adaptFold_facts (lst : List (String × TechEff)) :
    ∀ ag : PracticeAgent,
      (lst.foldl (fun ag p =>
          if 70 < p.2.totalEffectiveness / (p.2.count : ℚ) then
            addResistancePattern
              (setResistance ag (ag.profile.currentState.resistance + 5)) p.1
          else ag) ag).profile.currentState.tranceDepth
        = ag.profile.currentState.tranceDepth ∧
      (lst.foldl (fun ag p =>
          if 70 < p.2.totalEffectiveness / (p.2.count : ℚ) then
            addResistancePattern
              (setResistance ag (ag.profile.currentState.resistance + 5)) p.1
          else ag) ag).profile.currentState.suggestibility
        = ag.profile.currentState.suggestibility ∧
      (lst.foldl (fun ag p =>
          if 70 < p.2.totalEffectiveness / (p.2.count : ℚ) then
            addResistancePattern
              (setResistance ag (ag.profile.currentState.resistance + 5)) p.1
          else ag) ag).profile.currentState.awareness
        = ag.profile.currentState.awareness ∧
      ag.profile.currentState.resistance ≤
        (lst.foldl (fun ag p =>
          if 70 < p.2.totalEffectiveness / (p.2.count : ℚ) then
            addResistancePattern
              (setResistance ag (ag.profile.currentState.resistance + 5)) p.1
          else ag) ag).profile.currentState.resistance := by
  induction lst with
  | nil => intro ag; exact ⟨rfl, rfl, rfl, le_refl _⟩
  | cons q qs ih =>
    intro ag
    rw [List.foldl_cons]
    by_cases hq : 70 < q.2.totalEffectiveness / (q.2.count : ℚ)
    · rw [if_pos hq]
      obtain ⟨e1, e2, e3, e4⟩ :=
        ih (addResistancePattern (setResistance ag (ag.profile.currentState.resistance + 5)) q.1)
      rw [addResistancePattern_profile] at e1 e2 e3 e4
      simp only [setResistance] at e1 e2 e3 e4
      exact ⟨e1, e2, e3, le_trans (by linarith) e4⟩
    · rw [if_neg hq]
      exact ih ag

theorem adaptAgentCore_preserves {a : PracticeAgent}
    (hs : StateInBounds a.profile.currentState) (l : LearningProfile) :
    StateInBounds (adaptAgentCore a l).1.profile.currentState := by
  obtain ⟨h1, h2, h3, h4, h5, h6, h7, h8⟩ := hs
  obtain ⟨e1, e2, e3, e4⟩ := adaptFold_facts l.techniqueEffectiveness a
  unfold adaptAgentCore
  refine ⟨?_, ?_, ?_, ?_, ?_, ?_, ?_, ?_⟩
  · exact e1 ▸ h1
  · exact e1 ▸ h2
  · exact le_min (by norm_num) (le_trans h3 e4)
  · exact le_trans (min_le_left _ _) (by norm_num)
  · exact e2 ▸ h5
  · exact e2 ▸ h6
  · exact e3 ▸ h7
  · exact e3 ▸ h8

theorem generateAgentProfile_bounds (config : PracticeAgentConfig) (pid : String) :
    StateInBounds (generateAgentProfile config pid).currentState := by
  unfold generateAgentProfile
  dsimp only
  split_ifs <;> refine ⟨?_, ?_, ?_, ?_, ?_, ?_, ?_, ?_⟩ <;>
    norm_num [susceptibleEasyProfile, susceptibleMediumProfile,
      resistantHardProfile, offensiveExpertProfile]

/-- C7: every agent created from any preset keeps its four numeric state
fields in `[0, 100]` after every update, under any finite sequence of
`respond` calls interleaved with adaptation steps. -/
theorem agent_state_always_in_bounds (m : ManagerState) (config : PracticeAgentConfig)
    (agentId profileId : String) (steps : List AgentStep) :
    StateInBounds
      ((runSteps (createPracticeAgent m config agentId profileId).2 steps).profile.currentState) := by
  have hgen : ∀ (stps : List AgentStep) (a : PracticeAgent),
      StateInBounds a.profile.currentState →
        StateInBounds (runSteps a stps).profile.currentState := by
    intro stps
    induction stps with
    | nil => intro a ha; exact ha
    | cons st rest ih =>
      intro a ha
      show StateInBounds (rest.foldl runStep (runStep a st)).profile.currentState
      apply ih
      cases st with
      | respondStep t c p n => exact respond_preserves ha t c p n
      | adaptStep l => exact adaptAgentCore_preserves ha l
  exact hgen steps _ (generateAgentProfile_bounds config profileId)

theorem assocGet_singleton {α : Type} (k : String) (v : α) :
    assocGet [(k, v)] k = some v := by
  simp [assocGet]

theorem assocSet_singleton {α : Type} (k : String) (v w : α) :
    assocSet [(k, v)] k w = [(k, w)] := by
  simp [assocSet]

theorem recordOne_total (l : LearningProfile) (i : InteractionHistory) :
    (recordOne l i).totalInteractions = l.totalInteractions + 1 := rfl

theorem mem_addResistancePattern {a : PracticeAgent} {t x : String} :
    t ∈ (addResistancePattern a x).resistancePatterns ↔
      t ∈ a.resistancePatterns ∨ t = x := by
  unfold addResistancePattern
  split_ifs with h
  · constructor
    · exact Or.inl
    · rintro (ht | rfl)
      · exact ht
      · exact h
  · simp

theorem update_singleton (agentId : String) (a : PracticeAgent) (l : LearningProfile)
    (i : InteractionHistory) (h : (l.totalInteractions + 1) % 5 ≠ 0) :
    updateLearningProfile { agents := [(agentId, a)], learningData := [(agentId, l)] }
        agentId i
      = { agents := [(agentId, a)], learningData := [(agentId, recordOne l i)] } := by
  unfold updateLearningProfile
  rw [assocGet_singleton]
  dsimp only
  rw [recordOne_total, if_neg h, assocSet_singleton]

theorem update_singleton_fifth (agentId : String) (a : PracticeAgent) (l : LearningProfile)
    (i : InteractionHistory) (h : (l.totalInteractions + 1) % 5 = 0) :
    updateLearningProfile { agents := [(agentId, a)], learningData := [(agentId, l)] }
        agentId i
      = adaptAgent { agents := [(agentId, a)], learningData := [(agentId, recordOne l i)] }
          agentId := by
  unfold updateLearningProfile
  rw [assocGet_singleton]
  dsimp only
  rw [recordOne_total, if_pos h, assocSet_singleton]

theorem adapt_singleton (agentId : String) (a : PracticeAgent) (l : LearningProfile) :
    adaptAgent { agents := [(agentId, a)], learningData := [(agentId, l)] } agentId
      = { agents := [(agentId, (adaptAgentCore a l).1)]
          learningData := [(agentId, (adaptAgentCore a l).2)] } := by
  unfold adaptAgent
  rw [assocGet_singleton, assocGet_singleton]
  dsimp only
  rw [assocSet_singleton, assocSet_singleton]

theorem adaptFold_resistance (lst : List (String × TechEff)) :
    ∀ ag : PracticeAgent,
      (lst.foldl (fun ag p =>
          if 70 < p.2.totalEffectiveness / (p.2.count : ℚ) then
            addResistancePattern
              (setResistance ag (ag.profile.currentState.resistance + 5)) p.1
          else ag) ag).profile.currentState.resistance
        = ag.profile.currentState.resistance
          + 5 * ((lst.filter fun p =>
              70 < p.2.totalEffectiveness / (p.2.count : ℚ)).length : ℚ) := by
  induction lst with
  | nil => intro ag; simp
  | cons q qs ih =>
    intro ag
    rw [List.foldl_cons]
    by_cases hq : 70 < q.2.totalEffectiveness / (q.2.count : ℚ)
    · rw [if_pos hq, ih]
      rw [addResistancePattern_profile]
      simp only [setResistance]
      simp [List.filter_cons, hq]
      ring
    · rw [if_neg hq, ih]
      simp [List.filter_cons, hq]

theorem adaptFold_patterns (lst : List (String × TechEff)) :
    ∀ (ag : PracticeAgent) (t : String),
      (t ∈ ag.resistancePatterns ∨
        t ∈ (lst.filter fun p =>
          70 < p.2.totalEffectiveness / (p.2.count : ℚ)).map Prod.fst) →
      t ∈ (lst.foldl (fun ag p =>
          if 70 < p.2.totalEffectiveness / (p.2.count : ℚ) then
            addResistancePattern
              (setResistance ag (ag.profile.currentState.resistance + 5)) p.1
          else ag) ag).resistancePatterns := by
  induction lst with
  | nil => intro ag t ht; simpa using ht
  | cons q qs ih =>
    intro ag t ht
    rw [List.foldl_cons]
    by_cases hq : 70 < q.2.totalEffectiveness / (q.2.count : ℚ)
    · rw [if_pos hq]
      apply ih
      rcases ht with ht | ht
      · exact Or.inl (mem_addResistancePattern.mpr (Or.inl ht))
      · rw [List.filter_cons_of_pos (by simpa using hq), List.map_cons] at ht
        rcases List.mem_cons.mp ht with rfl | ht
        · exact Or.inl (mem_addResistancePattern.mpr (Or.inr rfl))
        · exact Or.inr ht
    · rw [if_neg hq]
      apply ih
      rcases ht with ht | ht
      · exact Or.inl ht
      · rw [List.filter_cons_of_neg (by simpa using hq)] at ht
        exact Or.inr ht

theorem adaptAgentCore_resistance (a : PracticeAgent) (l : LearningProfile) :
    (adaptAgentCore a l).1.profile.currentState.resistance
      = min 95 (a.profile.currentState.resistance
          + 5 * ((qualifyingTechniques l).length : ℚ)) := by
  show min 95 _ = _
  rw [adaptFold_resistance]
  unfold qualifyingTechniques
  rw [List.length_map]

theorem adaptAgentCore_patterns {a : PracticeAgent} {l : LearningProfile} {t : String}
    (ht : t ∈ qualifyingTechniques l) :
    t ∈ (adaptAgentCore a l).1.resistancePatterns := by
  show t ∈ (_ : PracticeAgent).resistancePatterns
  exact adaptFold_patterns l.techniqueEffectiveness a t (Or.inr ht)

/-- C2: recording interactions triggers an adaptation exactly on every
5th recorded interaction; each adaptation raises resistance by 5 per
technique whose mean recorded effectiveness exceeds 70 (final value
capped at 95) and adds those techniques to the resistance-pattern set;
in particular, 5 recorded interactions with the same technique, each
with effectiveness above 70, raise resistance by exactly 5 (when it
started below 90) and leave the technique in the resistance-pattern
set. -/
theorem adaptive_learning_five_cycle :
    (∀ (m : ManagerState) (agentId : String) (i : InteractionHistory) (l : LearningProfile),
      assocGet m.learningData agentId = some l →
      (l.totalInteractions + 1) % 5 ≠ 0 →
      (updateLearningProfile m agentId i).agents = m.agents) ∧
    (∀ (a : PracticeAgent) (l : LearningProfile),
      (adaptAgentCore a l).2.adaptationLevel = l.adaptationLevel + 1 ∧
      (adaptAgentCore a l).1.profile.currentState.resistance
        = min 95 (a.profile.currentState.resistance
            + 5 * ((qualifyingTechniques l).length : ℚ)) ∧
      ∀ t ∈ qualifyingTechniques l, t ∈ (adaptAgentCore a l).1.resistancePatterns) ∧
    (∀ (a : PracticeAgent) (agentId tech : String) (ts : Nat) (rs : String)
        (e1 e2 e3 e4 e5 : ℚ),
      70 < e1 → 70 < e2 → 70 < e3 → 70 < e4 → 70 < e5 →
      a.profile.currentState.resistance < 90 →
      ∃ a5 : PracticeAgent,
        assocGet (updateLearningProfile (updateLearningProfile (updateLearningProfile
            (updateLearningProfile (updateLearningProfile
              { agents := [(agentId, a)], learningData := [(agentId, freshLearningProfile)] }
              agentId { timestamp := ts, technique := tech, effectiveness := e1, response := rs })
              agentId { timestamp := ts, technique := tech, effectiveness := e2, response := rs })
              agentId { timestamp := ts, technique := tech, effectiveness := e3, response := rs })
              agentId { timestamp := ts, technique := tech, effectiveness := e4, response := rs })
              agentId { timestamp := ts, technique := tech, effectiveness := e5, response := rs }).agents
          agentId = some a5 ∧
        a5.profile.currentState.resistance = a.profile.currentState.resistance + 5 ∧
        tech ∈ a5.resistancePatterns) := by
  refine ⟨?_, ?_, ?_⟩
  · intro m agentId i l hget hmod
    unfold updateLearningProfile
    rw [hget]
    dsimp only
    rw [recordOne_total, if_neg hmod]
  · intro a l
    exact ⟨rfl, adaptAgentCore_resistance a l, fun t ht => adaptAgentCore_patterns ht⟩
  · intro a agentId tech ts rs e1 e2 e3 e4 e5 h1 h2 h3 h4 h5 hr
    rw [update_singleton agentId a freshLearningProfile _ (by decide)]
    rw [update_singleton agentId a _ _ (by simp [recordOne_total, freshLearningProfile])]
    rw [update_singleton agentId a _ _ (by simp [recordOne_total, freshLearningProfile])]
    rw [update_singleton agentId a _ _ (by simp [recordOne_total, freshLearningProfile])]
    rw [update_singleton_fifth agentId a _ _ (by simp [recordOne_total, freshLearningProfile])]
    rw [adapt_singleton]
    set l5 := recordOne (recordOne (recordOne (recordOne
      (recordOne freshLearningProfile
        { timestamp := ts, technique := tech, effectiveness := e1, response := rs })
        { timestamp := ts, technique := tech, effectiveness := e2, response := rs })
        { timestamp := ts, technique := tech, effectiveness := e3, response := rs })
        { timestamp := ts, technique := tech, effectiveness := e4, response := rs })
        { timestamp := ts, technique := tech, effectiveness := e5, response := rs } with hl5
    have hte : l5.techniqueEffectiveness
        = [(tech, { count := 5, totalEffectiveness := e1 + e2 + e3 + e4 + e5 })] := by
      rw [hl5]
      simp [recordOne, freshLearningProfile, assocGet, assocSet]
    have hq : (70 : ℚ) < (e1 + e2 + e3 + e4 + e5) / ((5 : Nat) : ℚ) := by
      rw [lt_div_iff₀ (by norm_num)]
      push_cast
      linarith
    have hqual : qualifyingTechniques l5 = [tech] := by
      unfold qualifyingTechniques
      rw [hte]
      rw [List.filter_cons_of_pos (by simpa using hq)]
      simp
    refine ⟨(adaptAgentCore a l5).1, assocGet_singleton _ _, ?_, ?_⟩
    · have hlen : ((qualifyingTechniques l5).length : ℚ) = 1 := by rw [hqual]; norm_num
      rw [adaptAgentCore_resistance, hlen]
      rw [min_eq_right (by linarith)]
      ring
    · exact adaptAgentCore_patterns (hqual ▸ List.mem_cons_self _ _)

/-- Witness for C2: the susceptible/easy preset agent (resistance 10)
after five recorded "focus" interactions at effectiveness 80. -/
theorem adaptive_learning_five_cycle_witness :
    ∃ a5 : PracticeAgent,
      assocGet (updateLearningProfile (updateLearningProfile (updateLearningProfile
          (updateLearningProfile (updateLearningProfile
            { agents := [("a1",
                { id := "a1", profile := susceptibleEasyProfile, resistancePatterns := [] })]
              learningData := [("a1", freshLearningProfile)] }
            "a1" { timestamp := 0, technique := "focus", effectiveness := 80, response := "" })
            "a1" { timestamp := 0, technique := "focus", effectiveness := 80, response := "" })
            "a1" { timestamp := 0, technique := "focus", effectiveness := 80, response := "" })
            "a1" { timestamp := 0, technique := "focus", effectiveness := 80, response := "" })
            "a1" { timestamp := 0, technique := "focus", effectiveness := 80, response := "" }).agents
        "a1" = some a5 ∧
      a5.profile.currentState.resistance
        = ({ id := "a1", profile := susceptibleEasyProfile,
             resistancePatterns := [] } : PracticeAgent).profile.currentState.resistance + 5 ∧
      "focus" ∈ a5.resistancePatterns :=
  adaptive_learning_five_cycle.2.2
    { id := "a1", profile := susceptibleEasyProfile, resistancePatterns := [] }
    "a1" "focus" 0 "" 80 80 80 80 80
    (by norm_num) (by norm_num) (by norm_num) (by norm_num) (by norm_num)
    (by norm_num [susceptibleEasyProfile])

theorem catalog_type_inj :
    ∀ p ∈ threatPatterns, ∀ q ∈ threatPatterns, p.type = q.type → p = q := by
  decide

theorem catalog_pairwise_idx :
    threatPatterns.Pairwise (fun p q => catalogIdx p.type < catalogIdx q.type) := by
  decide

theorem raw_pairwise (input : String) :
    (detectThreatsRaw input).Pairwise
      (fun a b => catalogIdx a.type < catalogIdx b.type) := by
  unfold detectThreatsRaw
  refine List.Pairwise.filterMap _ ?_ catalog_pairwise_idx
  intro p q hpq a ha b hb
  split_ifs at ha hb with h1 h2 <;> simp only [Option.mem_def, Option.some.injEq] at ha hb
  · subst ha
    subst hb
    exact hpq
  all_goals cases ha <;> cases hb

theorem sortKey_score_le {a b : DetectedThreat} (h : SortKey a b) : b.score ≤ a.score :=
  h.elim le_of_lt fun hh => le_of_eq hh.1.symm

theorem insertDesc_pairwise {x : DetectedThreat} {l : List DetectedThreat}
    (hl : l.Pairwise SortKey)
    (hidx : ∀ y ∈ l, catalogIdx y.type < catalogIdx x.type) :
    (insertDesc x l).Pairwise SortKey := by
  induction l with
  | nil => simp [insertDesc]
  | cons y ys ih =>
    obtain ⟨hy, hys⟩ := List.pairwise_cons.mp hl
    simp only [insertDesc]
    split_ifs with hle
    · apply List.pairwise_cons.mpr
      refine ⟨?_, ih hys fun z hz => hidx z (List.mem_cons_of_mem _ hz)⟩
      intro z hz
      rcases mem_insertDesc.mp hz with rfl | hz
      · rcases lt_or_eq_of_le hle with hlt | heq
        · exact Or.inl hlt
        · exact Or.inr ⟨heq.symm, hidx y (List.mem_cons_self _ _)⟩
      · exact hy z hz
    · push_neg at hle
      apply List.pairwise_cons.mpr
      refine ⟨?_, hl⟩
      intro z hz
      rcases List.mem_cons.mp hz with rfl | hz
      · exact Or.inl hle
      · exact Or.inl (lt_of_le_of_lt (sortKey_score_le (hy z hz)) hle)

theorem sortByScoreDesc_pairwise {l : List DetectedThreat}
    (hl : l.Pairwise (fun a b => catalogIdx a.type < catalogIdx b.type)) :
    (sortByScoreDesc l).Pairwise SortKey := by
  suffices h : ∀ (l acc : List DetectedThreat), acc.Pairwise SortKey →
      l.Pairwise (fun a b => catalogIdx a.type < catalogIdx b.type) →
      (∀ y ∈ acc, ∀ x ∈ l, catalogIdx y.type < catalogIdx x.type) →
      (l.foldl (fun acc x => insertDesc x acc) acc).Pairwise SortKey by
    exact h l [] List.Pairwise.nil hl (by simp)
  intro l
  induction l with
  | nil => intro acc hacc _ _; exact hacc
  | cons x xs ih =>
    intro acc hacc hlp hcross
    rw [List.foldl_cons]
    obtain ⟨hx, hxs⟩ := List.pairwise_cons.mp hlp
    apply ih
    · exact insertDesc_pairwise hacc fun y hy => hcross y hy x (List.mem_cons_self _ _)
    · exact hxs
    · intro y hy z hz
      rcases mem_insertDesc.mp hy with rfl | hy
      · exact hx z hz
      · exact hcross y hy z (List.mem_cons_of_mem _ hz)

/-- C3: threat detection scores each category as 10 points per trigger
keyword plus 20 per matching indicator, emits a detection exactly when
the score exceeds 30, assigns confidence `min(score/100, 1)`, and sorts
the output by descending score with ties in catalog declaration
order. -/
theorem threat_detection_matches_spec (input : String) :
    (∀ p ∈ threatPatterns,
      (30 < patternScoreSpec input p ↔ ∃ t ∈ detectThreats input, t.type = p.type)) ∧
    (∀ t ∈ detectThreats input, ∃ p ∈ threatPatterns,
      t.type = p.type ∧ t.pattern = p.detection ∧ t.score = patternScoreSpec input p ∧
      t.confidence = min ((t.score : ℚ) / 100) 1) ∧
    (detectThreats input).Pairwise SortKey := by
  refine ⟨?_, ?_, ?_⟩
  · intro p hp
    constructor
    · intro h30
      rw [← patternScore_eq_spec] at h30
      refine ⟨{ type := p.type, pattern := p.detection
                score := patternScore (lowerStr input) p
                confidence := min ((patternScore (lowerStr input) p : ℚ) / 100) 1 },
        mem_sortByScoreDesc.mpr (List.mem_filterMap.mpr ⟨p, hp, ?_⟩), rfl⟩
      rw [if_pos h30]
    · rintro ⟨t, ht, htype⟩
      obtain ⟨q, hq, hfq⟩ := List.mem_filterMap.mp (mem_sortByScoreDesc.mp ht)
      split_ifs at hfq with h30
      obtain rfl := Option.some.inj hfq
      obtain rfl := catalog_type_inj q hq p hp htype
      rw [← patternScore_eq_spec]
      exact h30
  · intro t ht
    obtain ⟨q, hq, hfq⟩ := List.mem_filterMap.mp (mem_sortByScoreDesc.mp ht)
    split_ifs at hfq with h30
    obtain rfl := Option.some.inj hfq
    exact ⟨q, hq, rfl, rfl, patternScore_eq_spec input q, rfl⟩
  · exact sortByScoreDesc_pairwise (raw_pairwise input)

/-- Witness for C3 at the input "sleep now" and the `rapid_induction`
catalog entry. -/
theorem threat_detection_matches_spec_witness :
    (30 < patternScoreSpec "sleep now"
        (threatPatterns.getD 2 { type := "", indicators := [], keywords := [], detection := "" })
      ↔ ∃ t ∈ detectThreats "sleep now",
          t.type = (threatPatterns.getD 2
            { type := "", indicators := [], keywords := [], detection := "" }).type) ∧
    (detectThreats "sleep now").Pairwise SortKey :=
  ⟨(threat_detection_matches_spec "sleep now").1 _ (by decide),
   (threat_detection_matches_spec "sleep now").2.2⟩

end Sentinel
